import Mathlib

/-!
Verification of the Octrafic CLI conversational tool-use orchestration engine.

Shallow embedding of the session controller (internal/cli/update.go), the tool
dispatcher (internal/cli/handlers.go), the test group runner and conversation
persistence helpers (internal/cli/update_tests.go), and the conversation store
(storage package). Go `map[string]any` values are modelled by the inductive
`GVal`; Go maps are association lists with key lookup, which matches Go map
indexing semantics (order of insertion is irrelevant to every lookup the code
performs). Machine integers appearing here (status codes, counters, token
counts) are far from overflow, so they are modelled as `Int`/`Nat`.
-/

namespace Octrafic

/-- Dynamic Go/JSON value, as stored in `map[string]any` tool arguments and
tool responses (`encoding/json` decodes numbers to float64; only integral
numbers occur in this code, modelled as `Int`). -/
inductive GVal where
  | str (s : String)
  | num (n : Int)
  | bool (b : Bool)
  | arr (xs : List GVal)
  | obj (kvs : List (String × GVal))
  | null
deriving Repr

/-- Association-list lookup, modelling Go map indexing `m[k]`. -/
def lookupKey (kvs : List (String × GVal)) (k : String) : Option GVal :=
  match kvs with
  | [] => none
  | (k₁, v) :: rest => if k₁ = k then some v else lookupKey rest k

/-- Go type assertion `v.(string)`. -/
def GVal.asString : GVal → Option String
  | .str s => some s
  | _ => none

/-- Go type assertion `v.(bool)`. -/
def GVal.asBool : GVal → Option Bool
  | .bool b => some b
  | _ => none

/-- Go type assertion `v.([]any)`. -/
def GVal.asArr : GVal → Option (List GVal)
  | .arr xs => some xs
  | _ => none

/-- Go type assertion `v.(map[string]any)`. -/
def GVal.asObj : GVal → Option (List (String × GVal))
  | .obj kvs => some kvs
  | _ => none

/-- Go pattern `s, _ := m[k].(string)`: missing key or wrong type yields `""`. -/
def getStringOr (kvs : List (String × GVal)) (k : String) : String :=
  ((lookupKey kvs k).bind GVal.asString).getD ""

/-- Go pattern `b, ok := m[k].(bool); if ok { ... }` with default false, as in
`requiresAuth := false; if ra, ok := testMap["requires_auth"].(bool) ...`. -/
def getBoolOr (kvs : List (String × GVal)) (k : String) : Bool :=
  ((lookupKey kvs k).bind GVal.asBool).getD false

/-- Header extraction from a test map: keep only string-valued entries of the
`headers` sub-map (update_tests.go handleRunNextTest, handlers.go ExecuteTest). -/
def parseHeaders (kvs : List (String × GVal)) : List (String × String) :=
  match (lookupKey kvs "headers").bind GVal.asObj with
  | none => []
  | some h => h.filterMap fun kv =>
      match kv.2.asString with
      | some vs => some (kv.1, vs)
      | none => none

/-- Result of the external HTTP test executor
(`ExecuteTest -> {statusCode, responseBody, duration} | error`). -/
structure ExecResult where
  statusCode : Int
  responseBody : String
  durationMs : Int
deriving Repr

/-- The test executor as called by the test group runner
(update_tests.go: `m.testExecutor.ExecuteTest(method, endpoint, headers, body)`),
an external collaborator: arguments are method, endpoint, headers, body. -/
def GroupExecutor : Type :=
  String → String → List (String × String) → Option GVal → Except String ExecResult

/-- The test executor as called by the single-test tool handler
(handlers.go: `m.testExecutor.ExecuteTest(method, endpoint, headers, body, requiresAuth)`). -/
def ToolExecutor : Type :=
  String → String → List (String × String) → Option GVal → Bool → Except String ExecResult

/-! ### Test Group Runner (update_tests.go, handleRunNextTest) -/

/-- One step of the test group runner: extract the fields of the head test map,
invoke the executor, and build the entry appended to `m.testGroupResults`
(update_tests.go lines 147-226). On executor error the entry is
`{method, endpoint, error, requires_auth}`; on success it is
`{method, endpoint, status_code, response_body, duration_ms, requires_auth}`. -/
def runOneTest (exec : GroupExecutor) (testMap : List (String × GVal)) :
    List (String × GVal) :=
  let method := getStringOr testMap "method"
  let endpoint := getStringOr testMap "endpoint"
  let requiresAuth := getBoolOr testMap "requires_auth"
  let headers := parseHeaders testMap
  let body := lookupKey testMap "body"
  match exec method endpoint headers body with
  | .error e =>
      [("method", .str method), ("endpoint", .str endpoint),
       ("error", .str e), ("requires_auth", .bool requiresAuth)]
  | .ok r =>
      [("method", .str method), ("endpoint", .str endpoint),
       ("status_code", .num r.statusCode), ("response_body", .str r.responseBody),
       ("duration_ms", .num r.durationMs), ("requires_auth", .bool requiresAuth)]

/-- Accumulated state of one group run: `m.testGroupCompletedCount` and
`m.testGroupResults`. -/
structure GroupState where
  completedCount : Nat
  results : List (List (String × GVal))
deriving Repr

/-- The group runner loop: pop the head of `m.pendingTests`, execute it, append
its entry and bump the completed counter, then continue with the next test
(handleRunNextTest re-issues `runNextTest()` until the queue is empty). -/
def runGroup (exec : GroupExecutor) :
    List (List (String × GVal)) → GroupState → GroupState
  | [], st => st
  | t :: rest, st =>
      runGroup exec rest
        ⟨st.completedCount + 1, st.results ++ [runOneTest exec t]⟩

/-- The final `FunctionResponseData.Response` handed back for the tool call when
the queue is exhausted: `{"count": m.testGroupCompletedCount, "results":
m.testGroupResults}` (update_tests.go lines 108-123). Counters start at zero
for each group (handleStartTestGroup). -/
def runGroupResponse (exec : GroupExecutor)
    (tests : List (List (String × GVal))) : List (String × GVal) :=
  let final := runGroup exec tests ⟨0, []⟩
  [("count", .num (Int.ofNat final.completedCount)),
   ("results", .arr (final.results.map GVal.obj))]

/-- Length of the `results` array of a tool response, when present. -/
def responseResultsLength (resp : List (String × GVal)) : Option Nat :=
  match (lookupKey resp "results").bind GVal.asArr with
  | some xs => some xs.length
  | none => none

/-! ### ExecuteTestGroup dispatch (handlers.go lines 379-419) and the
plan-selection UI (update.go handleShowTestSelection / handleTestPlanState) -/

/-- Parsing of the `tests` argument of ExecuteTestGroup: missing or non-array
arguments are errors; array elements that are not objects are skipped
(`continue`); an empty surviving list is an error (handlers.go 379-413). -/
def parseTestsArg (args : List (String × GVal)) :
    Except String (List (List (String × GVal))) :=
  match lookupKey args "tests" with
  | none => .error "missing tests parameter"
  | some v =>
    match v.asArr with
    | none => .error "tests parameter must be an array"
    | some xs =>
      let tests := xs.filterMap GVal.asObj
      if tests.isEmpty then .error "no valid tests to execute"
      else .ok tests

/-- The plan-selection UI: handleShowTestSelection marks every parsed test
`Selected: true`; the user may toggle selections; on Enter only the tests still
selected are handed to the group runner (update.go 945-1003). The user's final
choices are a list of booleans aligned with the parsed tests. -/
def selectTests (keep : List Bool) (tests : List (List (String × GVal))) :
    List (List (String × GVal)) :=
  (tests.zip keep).filterMap fun tk => if tk.2 then some tk.1 else none

/-- End-to-end pipeline for one ExecuteTestGroup tool call: argument parsing,
user selection, then the sequential group run. `.ok none` is the case where the
user deselected every test: the tool call receives no FunctionResponse at all
(update.go 955-961 resets the pending tool call and returns to idle). -/
def executeTestGroupPipeline (exec : GroupExecutor) (keep : List Bool)
    (args : List (String × GVal)) :
    Except String (Option (List (String × GVal))) :=
  match parseTestsArg args with
  | .error e => .error e
  | .ok tests =>
    let sel := selectTests keep tests
    if sel.isEmpty then .ok none
    else .ok (some (runGroupResponse exec sel))

/-! ### Data model: tool calls, chat messages (agents package, §3) -/

/-- A model-issued tool call: `agent.ToolCall{ID, Name, Arguments}`. -/
structure ToolCall where
  id : String
  name : String
  arguments : List (String × GVal)
deriving Repr

/-- A tool response: `agent.FunctionResponseData{ID, Name, Response}`; the
`Response` pointer may be nil. -/
structure FuncResp where
  id : String
  name : String
  response : Option (List (String × GVal))
deriving Repr

/-- One turn of conversation history: `agent.ChatMessage`. Zero values of the
Go struct are the defaults. -/
structure ChatMessage where
  role : String := ""
  content : String := ""
  reasoningContent : String := ""
  functionCalls : List ToolCall := []
  functionResponse : Option FuncResp := none
  inputTokens : Int := 0
  outputTokens : Int := 0
deriving Repr

/-! ### Confirmation Gate (update_tests.go shouldAskForConfirmation,
update.go agentResponseMsg branch lines 82-98) -/

/-- The fixed safe allow-list literal of update_tests.go lines 315-319. -/
def safeTools : List String :=
  ["GenerateTestPlan", "ExecuteTestGroup", "GenerateReport"]

/-- The function shouldAskForConfirmation returns `!safeTools[toolName]`; a Go map lookup
with a missing key yields the zero value false, so this is list membership. -/
def shouldAskForConfirmation (toolName : String) : Bool :=
  !(safeTools.contains toolName)

/-- The session execution mode; `ModeAutoExecute` is the headless/yolo
auto-execute mode checked at update.go line 86. -/
inductive ExecutionMode where
  | normal
  | autoExecute
deriving DecidableEq, Repr

/-- Session controller states relevant to the dispatch and confirmation logic
(the `m.agentState` values assigned in update.go / update_tests.go). -/
inductive AgentState where
  | idle
  | processing
  | thinking
  | usingTool
  | askingConfirmation
  | runningTests
  | showingTestPlan
deriving DecidableEq, Repr

/-- Decision of the confirmation gate at update.go lines 86-97:
`if m.executionMode == ModeAutoExecute || !needsConfirmation` execute now,
otherwise park the call and enter `StateAskingConfirmation`. -/
inductive GateOutcome where
  | executeNow
  | awaitConfirmation
deriving DecidableEq, Repr

def confirmationGate (mode : ExecutionMode) (toolName : String) : GateOutcome :=
  if mode = ExecutionMode.autoExecute ∨ shouldAskForConfirmation toolName = false
  then .executeNow else .awaitConfirmation

/-- Outcome of the agentResponseMsg tool-call branch (update.go 82-98): state
entered, the call handed to `executeTool` now (if any), and the call stored as
`m.pendingToolCall` awaiting the user (if any). Only `msg.toolCalls[0]` is ever
examined; the rest of the batch is dropped. -/
structure GateResult where
  state : AgentState
  executedCall : Option ToolCall
  pendingCall : Option ToolCall
deriving Repr

def agentResponseToolCalls (mode : ExecutionMode) (tcs : List ToolCall) :
    Option GateResult :=
  match tcs with
  | [] => none
  | tc :: _ =>
    match confirmationGate mode tc.name with
    | .executeNow => some ⟨.usingTool, some tc, none⟩
    | .awaitConfirmation => some ⟨.askingConfirmation, none, some tc⟩

/-! ### Streaming tool-call dispatcher (update.go handleProcessToolCalls,
lines 1159-1289) -/

/-- Scan over the batch via `find?`, modelling the Go `for _, toolCall := range
m.streamedToolCalls { if toolCall.Name == ... }` scan loops. -/
def findCall (name : String) (tcs : List ToolCall) : Option ToolCall :=
  tcs.find? fun tc => tc.name = name

/-- Outcome of one handleProcessToolCalls dispatch: the state assigned (none =
left unchanged), the calls started by this dispatch, and the value of
`m.streamedToolCalls` afterwards. -/
structure DispatchOutcome where
  state : Option AgentState
  executed : List ToolCall
  batch : List ToolCall
deriving Repr

/-- handleProcessToolCalls scans the batch by fixed priority
(get_endpoints_details, GenerateTestPlan, ExecuteTestGroup, ExportTests,
GenerateReport); the first match is dispatched and `m.streamedToolCalls` is set
to nil, dropping every other call of the batch; a GenerateTestPlan call without
a usable `what` argument only warns; any batch with no recognised name falls
through to `StateIdle` with the batch left in place. The execution mode is
never consulted and `StateAskingConfirmation` is never entered here. -/
def handleProcessToolCalls (tcs : List ToolCall) : DispatchOutcome :=
  if tcs.isEmpty then ⟨some .idle, [], tcs⟩
  else
    match findCall "get_endpoints_details" tcs with
    | some tc => ⟨some .thinking, [tc], []⟩
    | none =>
      match findCall "GenerateTestPlan" tcs with
      | some tc =>
        if getStringOr tc.arguments "what" = "" then ⟨none, [], []⟩
        else ⟨some .usingTool, [tc], []⟩
      | none =>
        match findCall "ExecuteTestGroup" tcs with
        | some tc => ⟨some .processing, [tc], []⟩
        | none =>
          match findCall "ExportTests" tcs with
          | some tc => ⟨some .usingTool, [tc], []⟩
          | none =>
            match findCall "GenerateReport" tcs with
            | some tc => ⟨some .usingTool, [tc], []⟩
            | none => ⟨some .idle, [], tcs⟩

/-! ### Single-test tool handler (handlers.go ExecuteTest branch, lines
272-344) and the toolResultMsg branch of Update (update.go lines 101-121) -/

/-- Extraction of `expected_status` with its default: a float64 or int argument is
used, anything else defaults to 200 (handlers.go 285-290). -/
def getExpectedStatus (args : List (String × GVal)) : Int :=
  match lookupKey args "expected_status" with
  | some (.num n) => n
  | _ => 200

/-- A `toolResultMsg`: tool id and name, optional result map, optional error. -/
structure ToolResult where
  toolID : String
  toolName : String
  result : Option (List (String × GVal))
  err : Option String
deriving Repr

/-- The ExecuteTest branch of executeTool (handlers.go 272-344): validate
method/endpoint, resolve expected_status, run the executor; on transport error
the msg carries both a result map `{..., error, expected_status, passed:false}`
and the error; on success `passed = statusCode == expectedStatus`. -/
def executeToolExecuteTest (exec : ToolExecutor) (tc : ToolCall) : ToolResult :=
  let method := getStringOr tc.arguments "method"
  let endpoint := getStringOr tc.arguments "endpoint"
  if method = "" ∨ endpoint = "" then
    ⟨tc.id, tc.name, none, some "missing required parameters: method and endpoint"⟩
  else
    let expectedStatus := getExpectedStatus tc.arguments
    let headers := parseHeaders tc.arguments
    let body := lookupKey tc.arguments "body"
    let requiresAuth := getBoolOr tc.arguments "requires_auth"
    match exec method endpoint headers body requiresAuth with
    | .error e =>
        ⟨tc.id, tc.name,
         some [("method", .str method), ("endpoint", .str endpoint),
               ("error", .str e), ("expected_status", .num expectedStatus),
               ("passed", .bool false)],
         some e⟩
    | .ok r =>
        let passed : Bool := r.statusCode = expectedStatus
        ⟨tc.id, tc.name,
         some [("method", .str method), ("endpoint", .str endpoint),
               ("status_code", .num r.statusCode),
               ("expected_status", .num expectedStatus),
               ("response_body", .str r.responseBody),
               ("duration_ms", .num r.durationMs),
               ("passed", .bool passed)],
         none⟩

/-- Command issued by the controller after handling a message. `quitProgram`
(`tea.Quit`) is only ever produced by Ctrl+C and the /exit command, never by
tool handling. -/
inductive NextCmd where
  | sendChat
  | idleWait
  | quitProgram
deriving DecidableEq, Repr

/-- The tools for which handleToolResult has a branch (handlers.go 433-735). -/
def handledToolNames : List String :=
  ["ExecuteTest", "ExecuteTestGroup", "get_endpoints_details",
   "GenerateReport", "ExportTests", "GenerateTestPlan"]

/-- The branches of handleToolResult whose body is guarded by a successful
`result.(map[string]any)` assertion. -/
def mapGuardedToolNames : List String :=
  ["ExecuteTest", "ExecuteTestGroup", "GenerateReport", "ExportTests"]

/-- handleToolResult (handlers.go 433-735), transcript rendering omitted: every
branch appends a `FunctionResponse` chat turn and re-enters the model loop when
the call carried a tool id, and does nothing durable otherwise. -/
def handleToolResultModel (history : List ChatMessage) (tr : ToolResult) :
    List ChatMessage × AgentState × NextCmd :=
  if handledToolNames.contains tr.toolName then
    if mapGuardedToolNames.contains tr.toolName ∧ tr.result.isNone then
      (history, .idle, .idleWait)
    else if tr.toolID = "" then (history, .idle, .idleWait)
    else
      (history ++ [{ role := "user",
                     functionResponse := some ⟨tr.toolID, tr.toolName, tr.result⟩ }],
       .thinking, .sendChat)
  else (history, .idle, .idleWait)

/-- The toolResultMsg branch of Update (update.go 101-121): a non-nil error
discards the result map, appends a plain user turn `Tool error: ...` with no
FunctionResponse, and continues the model loop; otherwise handleToolResult
runs. Neither path terminates the session. -/
def updateToolResult (history : List ChatMessage) (tr : ToolResult) :
    List ChatMessage × AgentState × NextCmd :=
  match tr.err with
  | some e =>
      (history ++ [{ role := "user", content := "Tool error: " ++ e }],
       .thinking, .sendChat)
  | none => handleToolResultModel history tr

/-! ### Conversation persistence (update_tests.go save helpers, storage
SaveMessage/GetMessages) -/

/-- A persisted message row: `storage.Message` restricted to the fields replay
reads (type, content, metadata). Metadata goes through a JSON marshal and
unmarshal (storage.SaveMessage / storage.GetMessages); keys survive that round
trip and lookups are by key, so it stays an association list here. -/
structure StoredMessage where
  mtype : String
  content : String
  metadata : Option (List (String × GVal))
deriving Repr

/-- Modelled from the spec: the JSON encoding of `agent.ToolCall` (the agents
package struct definition is not under src/). §3 of the spec gives the shape
`ToolCall: {id, name, arguments: map[string,any]}`, which fixes the JSON keys
used when `storage.SaveMessage` marshals the `tool_calls` metadata entry. -/
def ToolCall.toGVal (tc : ToolCall) : GVal :=
  .obj [("id", .str tc.id), ("name", .str tc.name),
        ("arguments", .obj tc.arguments)]

/-- The store helper `storage.SaveMessage` stores NULL metadata when the metadata map is nil or
empty (part: `if metadata != nil && len(metadata) > 0`). -/
def saveMessageBody (mtype content : String)
    (metadata : Option (List (String × GVal))) : StoredMessage :=
  ⟨mtype, content,
   match metadata with
   | some md => if md.isEmpty then none else some md
   | none => none⟩

/-- saveChatMessageToConversation without its ephemeral guard (update_tests.go
469-494): a FunctionResponse turn is stored as type "tool" with content
`Tool: <name>` and metadata tool_name/tool_id/tool_output; any other turn is
stored under its role with reasoning, tool_calls and token counts added to
metadata only when non-zero. -/
def saveChatMessageBody (msg : ChatMessage) : StoredMessage :=
  match msg.functionResponse with
  | some fr =>
      let md := [("tool_name", GVal.str fr.name), ("tool_id", GVal.str fr.id)]
        ++ (match fr.response with
            | some r => [("tool_output", GVal.obj r)]
            | none => [])
      saveMessageBody "tool" ("Tool: " ++ fr.name) (some md)
  | none =>
      let md :=
        (if msg.reasoningContent = "" then []
         else [("reasoning", GVal.str msg.reasoningContent)])
        ++ (if msg.functionCalls.isEmpty then []
            else [("tool_calls", GVal.arr (msg.functionCalls.map ToolCall.toGVal))])
        ++ (if msg.inputTokens > 0 then [("input_tokens", GVal.num msg.inputTokens)]
            else [])
        ++ (if msg.outputTokens > 0 then [("output_tokens", GVal.num msg.outputTokens)]
            else [])
      saveMessageBody msg.role msg.content (some md)

/-- The persistence context of a session: `m.conversationID`, whether
`m.currentProject` is non-nil, and its `IsTemporary` flag. -/
structure PersistCtx where
  conversationID : String
  hasProject : Bool
  isTemporary : Bool
deriving DecidableEq, Repr

/-- The guard shared by both save helpers (update_tests.go 457, 465):
`m.conversationID == "" || m.currentProject == nil || m.currentProject.IsTemporary`. -/
def PersistCtx.ephemeral (c : PersistCtx) : Bool :=
  c.conversationID == "" || !c.hasProject || c.isTemporary

/-- saveMessageToConversation (update_tests.go 455-462): `none` means no write
reaches the conversation store. -/
def saveMessageToConversation (c : PersistCtx) (mtype content : String)
    (metadata : Option (List (String × GVal))) : Option StoredMessage :=
  if c.ephemeral then none else some (saveMessageBody mtype content metadata)

/-- saveChatMessageToConversation (update_tests.go 464-495) with its guard. -/
def saveChatMessageToConversation (c : PersistCtx) (msg : ChatMessage) :
    Option StoredMessage :=
  if c.ephemeral then none else some (saveChatMessageBody msg)

/-! ### Replay (update_tests.go loadConversationHistory, lines 512-667) -/

/-- The helper `getString` of update_tests.go 670-675. -/
def getStringMeta (md : List (String × GVal)) (k : String) : String :=
  match (lookupKey md k).bind GVal.asString with
  | some s => s
  | none => ""

/-- Decoding of one element of the `tool_calls` metadata array (update_tests.go
615-628): non-object entries are skipped, id/name default to "", a missing or
non-object `arguments` leaves the argument map empty (nil). -/
def decodeToolCall (v : GVal) : Option ToolCall :=
  match v.asObj with
  | none => none
  | some kvs =>
      some ⟨getStringMeta kvs "id", getStringMeta kvs "name",
            ((lookupKey kvs "arguments").bind GVal.asObj).getD []⟩

/-- Replay of one stored row into an in-memory ChatMessage (the switch of
loadConversationHistory): type "tool" rebuilds a user turn carrying the
FunctionResponse; type "user" is skipped when its content is empty; type
"assistant" rebuilds content, reasoning, tool_calls, tool_results and token
counts; any other type is skipped. `none` means the row adds no turn. -/
def loadStoredMessage (sm : StoredMessage) : Option ChatMessage :=
  match sm.mtype with
  | "tool" =>
      match sm.metadata with
      | some md =>
          some { role := "user",
                 functionResponse := some
                   ⟨getStringMeta md "tool_id", getStringMeta md "tool_name",
                    (lookupKey md "tool_output").bind GVal.asObj⟩ }
      | none => some { role := "user" }
  | "user" =>
      if sm.content = "" then none
      else some { role := "user", content := sm.content }
  | "assistant" =>
      let md := sm.metadata.getD []
      some { role := "assistant",
             content := sm.content,
             reasoningContent := getStringMeta md "reasoning",
             functionCalls :=
               (((lookupKey md "tool_calls").bind GVal.asArr).getD []).filterMap
                 decodeToolCall,
             functionResponse :=
               match (lookupKey md "tool_results").bind GVal.asObj with
               | some tr =>
                   some ⟨getStringMeta tr "id", getStringMeta tr "name",
                         (lookupKey tr "response").bind GVal.asObj⟩
               | none => none,
             inputTokens := ((lookupKey md "input_tokens").bind
               fun v => match v with | .num n => some n | _ => none).getD 0,
             outputTokens := ((lookupKey md "output_tokens").bind
               fun v => match v with | .num n => some n | _ => none).getD 0 }
  | _ => none

/-- Replaying a stored log: rows are appended to `m.conversationHistory` in
order, skipped rows contribute nothing. -/
def replayLog (log : List StoredMessage) : List ChatMessage :=
  log.filterMap loadStoredMessage

/-! ### Streaming relay events: cancellation and errors
(update.go handleStreamingMsg, lines 442-448 and 546-572) -/

/-- The streaming accumulation buffers of the session
(`m.streamedTextChunk`, `m.streamedAgentMessage`, `m.streamedReasoningChunk`,
`m.streamedToolCalls`). -/
structure StreamBuffers where
  textChunk : String
  agentMessage : String
  reasoningChunk : String
  toolCalls : List ToolCall
deriving Repr

/-- Outcome of a terminal streaming event: the turn written to the conversation
store (if any), the buffers afterwards, the state entered, and whether an error
line was rendered to the transcript. -/
structure StreamEndOutcome where
  savedTurn : Option ChatMessage
  buffers : StreamBuffers
  state : AgentState
  errorShown : Bool
deriving Repr

/-- The CANCELLED branch (update.go 546-572): the partial text chunk (or, when
empty, the last complete agent message) is committed to the conversation store
as an assistant turn with " (cancelled)" appended; every buffer, including the
accumulated reasoning, is then discarded; no error is rendered. -/
def handleCancelledEvent (b : StreamBuffers) : StreamEndOutcome :=
  let finalContent := if b.textChunk ≠ "" then b.textChunk else b.agentMessage
  { savedTurn :=
      if finalContent ≠ "" then
        some { role := "assistant", content := finalContent ++ " (cancelled)" }
      else none,
    buffers := ⟨"", "", b.reasoningChunk, b.toolCalls⟩,
    state := .idle,
    errorShown := false }

/-- The ERROR branch (update.go 442-448): an error line is rendered, nothing is
committed, the turn ends. -/
def handleErrorEvent (b : StreamBuffers) : StreamEndOutcome :=
  { savedTurn := none, buffers := b, state := .idle, errorShown := true }

/-! ### Session events touching history and the conversation log together
(for the replay round-trip law) -/

/-- The events of one session that append to the in-memory history
`m.conversationHistory` or to the persisted log, in a non-ephemeral session:

* `userSubmit` — the Enter branch of Update (update.go 219-267): appends a user
  turn and saves type "user" with display metadata;
* `assistantTurn` — the DONE branch of handleStreamingMsg (update.go 484-530):
  appends the assistant turn and saves it;
* `toolResponseTurn` — the handleToolResult / handleRunNextTest /
  handleGenerateTestPlanResult paths: append a FunctionResponse turn and save it;
* `toolErrorTurn` — the toolResultMsg error branch (update.go 101-113): appends
  a plain user turn to history and saves nothing;
* `streamCancelled` — handleStreamingMsg CANCELLED (update.go 546-572): saves a
  tagged assistant turn and appends nothing to history;
* `escCancel` — handleGlobalKeyboard Esc during processing (update.go 584-607):
  appends the untagged partial content to history and saves nothing. -/
inductive SessionEvent where
  | userSubmit (content : String)
  | assistantTurn (content reasoning : String) (calls : List ToolCall)
      (inTok outTok : Int)
  | toolResponseTurn (fr : FuncResp)
  | toolErrorTurn (e : String)
  | streamCancelled (b : StreamBuffers)
  | escCancel (b : StreamBuffers)

/-- Effect of one event on (history, persisted log). -/
def applyEvent (st : List ChatMessage × List StoredMessage)
    (ev : SessionEvent) : List ChatMessage × List StoredMessage :=
  match ev with
  | .userSubmit s =>
      (st.1 ++ [{ role := "user", content := s }],
       st.2 ++ [saveMessageBody "user" s (some [("display_content", GVal.str s)])])
  | .assistantTurn c r calls inTok outTok =>
      let msg : ChatMessage :=
        { role := "assistant", content := c, reasoningContent := r,
          functionCalls := calls, inputTokens := inTok, outputTokens := outTok }
      (st.1 ++ [msg], st.2 ++ [saveChatMessageBody msg])
  | .toolResponseTurn fr =>
      let msg : ChatMessage := { role := "user", functionResponse := some fr }
      (st.1 ++ [msg], st.2 ++ [saveChatMessageBody msg])
  | .toolErrorTurn e =>
      (st.1 ++ [{ role := "user", content := "Tool error: " ++ e }], st.2)
  | .streamCancelled b =>
      (st.1,
       st.2 ++ (match (handleCancelledEvent b).savedTurn with
                | some m => [saveChatMessageBody m]
                | none => []))
  | .escCancel b =>
      let content := if b.textChunk ≠ "" then b.textChunk else b.agentMessage
      (st.1 ++ (if b.textChunk ≠ "" ∨ b.agentMessage ≠ "" then
                  [{ role := "assistant", content := content }] else []),
       st.2)

/-- A whole session trace, starting from empty history and log. -/
def applyEvents (evs : List SessionEvent) :
    List ChatMessage × List StoredMessage :=
  evs.foldl applyEvent ([], [])

/-- What the round-trip law compares: role, content, and the id-and-name
linkage of ToolCalls and the ToolResponse of a turn. -/
def ChatMessage.digest (m : ChatMessage) :
    String × String × List (String × String) × Option (String × String) :=
  (m.role, m.content, m.functionCalls.map (fun tc => (tc.id, tc.name)),
   m.functionResponse.map (fun fr => (fr.id, fr.name)))

/-- Equality of two histories up to role, content and tool linkage. -/
def linkEqList (xs ys : List ChatMessage) : Prop :=
  xs.map ChatMessage.digest = ys.map ChatMessage.digest

instance : DecidablePred fun p : List ChatMessage × List ChatMessage =>
    linkEqList p.1 p.2 := by
  intro p
  unfold linkEqList
  infer_instance

/-! ### Conversation creation and titles (update.go 236-245, storage
CreateConversation lines 81-117) -/

/-- Go strings are byte sequences; `len` and slicing act on bytes. They are
modelled as lists of symbols so that `len(title) > 100` and `title[:97]` are
`List.length` and `List.take`. -/
def conversationTitleFor (userInput : List Char) : List Char :=
  if userInput.length > 100 then userInput.take 97 ++ ('.' :: '.' :: '.' :: [])
  else userInput

/-- The default applied by storage.CreateConversation when given an empty
title. -/
def untitledConversation : List Char := "Untitled Conversation".toList

/-- CreateConversation stores `title` unchanged unless it is empty. -/
def createConversationTitle (title : List Char) : List Char :=
  if title.isEmpty then untitledConversation else title

instance (xs ys : List ChatMessage) : Decidable (linkEqList xs ys) := by
  unfold linkEqList
  infer_instance

/-! ## Helper lemmas -/

theorem lookupKey_append (xs ys : List (String × GVal)) (k : String) :
    lookupKey (xs ++ ys) k =
      match lookupKey xs k with
      | some v => some v
      | none => lookupKey ys k := by
  induction xs with
  | nil => simp [lookupKey]
  | cons hd tl ih =>
    by_cases h : hd.1 = k
    · simp [lookupKey, h]
    · simp [lookupKey, h, ih]

theorem runGroup_spec (exec : GroupExecutor) (ts : List (List (String × GVal))) :
    ∀ st : GroupState,
      runGroup exec ts st =
        ⟨st.completedCount + ts.length, st.results ++ ts.map (runOneTest exec)⟩ := by
  induction ts with
  | nil => intro st; simp [runGroup]
  | cons t rest ih =>
    intro st
    rw [runGroup, ih]
    simp
    omega

theorem runGroupResponse_count (exec : GroupExecutor)
    (ts : List (List (String × GVal))) :
    lookupKey (runGroupResponse exec ts) "count"
        = some (.num (Int.ofNat ts.length))
      ∧ responseResultsLength (runGroupResponse exec ts) = some ts.length := by
  unfold runGroupResponse responseResultsLength
  rw [runGroup_spec]
  simp [lookupKey, GVal.asArr]

/-! ## Claim C1 -/

/-- Demo group executor that always succeeds. -/
def demoExecOK : GroupExecutor := fun _ _ _ _ => .ok ⟨200, "ok", 5⟩

/-- C1 (amended): for every ExecuteTestGroup tool call that eventually produces
a ToolResponse, the response reports `count` equal to the number of tests
actually executed — the object-valued specs the user left selected in the
plan-selection UI — and a `results` list of exactly that length, regardless of
how many individual tests fail or error (the executor is universally
quantified). In particular `len(results) == count` always. -/
theorem executeTestGroup_count_selected (exec : GroupExecutor)
    (keep : List Bool) (args : List (String × GVal))
    (tests : List (List (String × GVal))) (resp : List (String × GVal))
    (hparse : parseTestsArg args = .ok tests)
    (hresp : executeTestGroupPipeline exec keep args = .ok (some resp)) :
    lookupKey resp "count"
        = some (.num (Int.ofNat (selectTests keep tests).length))
      ∧ responseResultsLength resp = some (selectTests keep tests).length := by
  unfold executeTestGroupPipeline at hresp
  rw [hparse] at hresp
  by_cases hsel : (selectTests keep tests).isEmpty
  · simp [hsel] at hresp
  · simp [hsel] at hresp
    rw [← hresp]
    exact runGroupResponse_count exec (selectTests keep tests)

def c1WitTest : List (String × GVal) :=
  [("method", GVal.str "GET"), ("endpoint", GVal.str "/ping")]

def c1WitArgs : List (String × GVal) :=
  [("tests", GVal.arr [GVal.obj c1WitTest])]

theorem executeTestGroup_count_selected_witness :
    lookupKey (runGroupResponse demoExecOK [c1WitTest]) "count"
        = some (.num (Int.ofNat (selectTests [true] [c1WitTest]).length))
      ∧ responseResultsLength (runGroupResponse demoExecOK [c1WitTest])
        = some (selectTests [true] [c1WitTest]).length :=
  executeTestGroup_count_selected demoExecOK [true] c1WitArgs [c1WitTest]
    (runGroupResponse demoExecOK [c1WitTest]) rfl rfl

/-- Tests argument of the C1 counterexample: two specs are passed, but the
second is not an object and is skipped by the dispatch parser
(handlers.go 399-405). -/
def c1BadArgs : List (String × GVal) :=
  [("tests", GVal.arr [GVal.obj c1WitTest, GVal.str "oops"])]

/-- C1 counterexample: a list of N = 2 test specifications passed to
ExecuteTestGroup whose eventual ToolResponse carries `count == 1`, even with
every surviving test selected and passing. -/
theorem executeTestGroup_count_not_input_length :
    (match lookupKey c1BadArgs "tests" with
      | some (.arr xs) => xs.length
      | _ => 0) = 2
    ∧ executeTestGroupPipeline demoExecOK [true, true] c1BadArgs
        = .ok (some (runGroupResponse demoExecOK [c1WitTest]))
    ∧ lookupKey (runGroupResponse demoExecOK [c1WitTest]) "count"
        = some (.num 1)
    ∧ (1 : Int) ≠ 2 :=
  ⟨rfl, rfl, rfl, by decide⟩

/-! ## Claim C2 -/

/-- Demo group executor that always fails with a transport error. -/
def demoExecFail : GroupExecutor := fun _ _ _ _ => .error "connection refused"

/-- C2 (amended): each entry appended by the Test Group Runner contains method,
endpoint and requiresAuth; on executor error it additionally contains only the
error text (no durationMs), and on success statusCode, responseBody and
durationMs. No `passed` flag and no `expected_status` are recorded, and the
single completed-tests counter is incremented (together with the entry append)
before the next test is started. -/
theorem testGroupRunner_entry_fields (exec : GroupExecutor)
    (t : List (String × GVal)) :
    lookupKey (runOneTest exec t) "method"
        = some (.str (getStringOr t "method"))
    ∧ lookupKey (runOneTest exec t) "endpoint"
        = some (.str (getStringOr t "endpoint"))
    ∧ lookupKey (runOneTest exec t) "requires_auth"
        = some (.bool (getBoolOr t "requires_auth"))
    ∧ lookupKey (runOneTest exec t) "passed" = none
    ∧ lookupKey (runOneTest exec t) "expected_status" = none
    ∧ (∀ err, exec (getStringOr t "method") (getStringOr t "endpoint")
          (parseHeaders t) (lookupKey t "body") = .error err →
        lookupKey (runOneTest exec t) "error" = some (.str err)
        ∧ lookupKey (runOneTest exec t) "duration_ms" = none)
    ∧ (∀ r, exec (getStringOr t "method") (getStringOr t "endpoint")
          (parseHeaders t) (lookupKey t "body") = .ok r →
        lookupKey (runOneTest exec t) "status_code" = some (.num r.statusCode)
        ∧ lookupKey (runOneTest exec t) "duration_ms" = some (.num r.durationMs))
    ∧ (∀ rest st, runGroup exec (t :: rest) st
        = runGroup exec rest
            ⟨st.completedCount + 1, st.results ++ [runOneTest exec t]⟩) := by
  cases hx : exec (getStringOr t "method") (getStringOr t "endpoint")
      (parseHeaders t) (lookupKey t "body") with
  | error e =>
    refine ⟨?_, ?_, ?_, ?_, ?_, ?_, ?_, fun rest st => rfl⟩
    · simp [runOneTest, hx, lookupKey]
    · simp [runOneTest, hx, lookupKey]
    · simp [runOneTest, hx, lookupKey]
    · simp [runOneTest, hx, lookupKey]
    · simp [runOneTest, hx, lookupKey]
    · intro err herr
      injection herr with h
      subst h
      exact ⟨by simp [runOneTest, hx, lookupKey], by simp [runOneTest, hx, lookupKey]⟩
    · intro r hr
      exact absurd hr (by simp)
  | ok r =>
    refine ⟨?_, ?_, ?_, ?_, ?_, ?_, ?_, fun rest st => rfl⟩
    · simp [runOneTest, hx, lookupKey]
    · simp [runOneTest, hx, lookupKey]
    · simp [runOneTest, hx, lookupKey]
    · simp [runOneTest, hx, lookupKey]
    · simp [runOneTest, hx, lookupKey]
    · intro err herr
      exact absurd herr (by simp)
    · intro r₁ hr
      injection hr with h
      subst h
      exact ⟨by simp [runOneTest, hx, lookupKey], by simp [runOneTest, hx, lookupKey]⟩

def c2WitTest : List (String × GVal) :=
  [("method", GVal.str "GET"), ("endpoint", GVal.str "/users"),
   ("requires_auth", GVal.bool true)]

theorem testGroupRunner_entry_fields_witness :
    lookupKey (runOneTest demoExecFail c2WitTest) "method"
        = some (.str "GET")
    ∧ lookupKey (runOneTest demoExecFail c2WitTest) "error"
        = some (.str "connection refused")
    ∧ lookupKey (runOneTest demoExecFail c2WitTest) "duration_ms" = none
    ∧ runGroup demoExecFail [c2WitTest] ⟨0, []⟩
        = ⟨1, [runOneTest demoExecFail c2WitTest]⟩ := by
  have h := testGroupRunner_entry_fields demoExecFail c2WitTest
  exact ⟨h.1, (h.2.2.2.2.2.1 "connection refused" rfl).1,
    (h.2.2.2.2.2.1 "connection refused" rfl).2,
    h.2.2.2.2.2.2.2 [] ⟨0, []⟩⟩

/-- C2 counterexample: a concrete test whose appended entry contains neither a
`passed` field nor (on the error path) a `durationMs` field, refuting the
claimed entry shape. -/
theorem testGroupRunner_entry_missing_passed :
    (runGroup demoExecFail [c2WitTest] ⟨0, []⟩).results
        = [runOneTest demoExecFail c2WitTest]
    ∧ lookupKey (runOneTest demoExecFail c2WitTest) "passed" = none
    ∧ lookupKey (runOneTest demoExecFail c2WitTest) "duration_ms" = none
    ∧ lookupKey (runOneTest demoExecFail c2WitTest) "error"
        = some (.str "connection refused") :=
  ⟨rfl, rfl, rfl, rfl⟩

/-! ## Claim C3 -/

/-- C3 (amended): tool names on the fixed safe allow-list are always
auto-approved by the confirmation gate and never cause a transition into
`StateAskingConfirmation`; a non-allow-listed name reaching the
agentResponseMsg gate in normal mode does enter `StateAskingConfirmation`; but
the streaming dispatcher handleProcessToolCalls never enters
`StateAskingConfirmation` for any batch — it executes its five recognised tools
directly (mode never consulted) and ignores every other name. -/
theorem confirmationGate_policy (mode : ExecutionMode) (name : String)
    (tcs : List ToolCall) :
    (safeTools.contains name = true → confirmationGate mode name = .executeNow)
    ∧ (mode = .normal → safeTools.contains name = false →
        confirmationGate mode name = .awaitConfirmation)
    ∧ (handleProcessToolCalls tcs).state ≠ some .askingConfirmation := by
  refine ⟨?_, ?_, ?_⟩
  · intro hsafe
    have hask : shouldAskForConfirmation name = false := by
      unfold shouldAskForConfirmation
      rw [hsafe]
      rfl
    simp [confirmationGate, hask]
  · intro hmode hnonsafe
    have hask : shouldAskForConfirmation name = true := by
      unfold shouldAskForConfirmation
      rw [hnonsafe]
      rfl
    subst hmode
    simp [confirmationGate, hask]
  · unfold handleProcessToolCalls
    split
    · simp
    · split
      · simp
      · split
        · split
          · simp
          · simp
        · split
          · simp
          · split
            · simp
            · split
              · simp
              · simp

theorem confirmationGate_policy_witness :
    confirmationGate .normal "GenerateReport" = .executeNow
    ∧ confirmationGate .normal "ExecuteTest" = .awaitConfirmation
    ∧ (handleProcessToolCalls []).state ≠ some .askingConfirmation := by
  have h₁ := confirmationGate_policy ExecutionMode.normal "GenerateReport" []
  have h₂ := confirmationGate_policy ExecutionMode.normal "ExecuteTest" []
  exact ⟨h₁.1 rfl, h₂.2.1 rfl rfl, h₁.2.2⟩

/-- The ExportTests call of the C3 counterexample; its name is not on the safe
allow-list. -/
def c3ExportCall : ToolCall := ⟨"tc_9", "ExportTests", []⟩

/-- The ExecuteTest call of the C3 counterexample. -/
def c3ExecuteCall : ToolCall := ⟨"tc_1", "ExecuteTest", []⟩

/-- C3 counterexample: a streamed batch holding a single non-allow-listed
`ExportTests` call is executed immediately (state `StateUsingTool`, mode never
consulted), and a streamed `ExecuteTest` call is ignored entirely (state
`StateIdle`); neither enters `StateAskingConfirmation`, refuting the claim that
every non-allow-listed call does so outside auto-execute mode. -/
theorem streamed_dispatch_skips_confirmation :
    safeTools.contains "ExportTests" = false
    ∧ handleProcessToolCalls [c3ExportCall]
        = ⟨some .usingTool, [c3ExportCall], []⟩
    ∧ handleProcessToolCalls [c3ExecuteCall]
        = ⟨some .idle, [], [c3ExecuteCall]⟩
    ∧ some AgentState.usingTool ≠ some AgentState.askingConfirmation
    ∧ some AgentState.idle ≠ some AgentState.askingConfirmation :=
  ⟨by decide, rfl, rfl, by decide, by decide⟩

/-! ## Claim C4 -/

theorem handleToolResultModel_no_quit (h : List ChatMessage) (tr : ToolResult) :
    (handleToolResultModel h tr).2.2 ≠ NextCmd.quitProgram := by
  unfold handleToolResultModel
  split
  · split
    · simp
    · split
      · simp
      · simp
  · simp

theorem updateToolResult_no_quit (h : List ChatMessage) (tr : ToolResult) :
    (updateToolResult h tr).2.2 ≠ NextCmd.quitProgram := by
  unfold updateToolResult
  split
  · simp
  · exact handleToolResultModel_no_quit h _

/-- Field access into the result map of a toolResultMsg. -/
def resultField (tr : ToolResult) (k : String) : Option GVal :=
  match tr.result with
  | some res => lookupKey res k
  | none => none

/-- C4: for an ExecuteTest call with non-empty method and endpoint,
expected_status defaults to 200 when absent; on executor success the result map
reports `passed = (statusCode == expected_status)`; on transport error the
result map contains the error text and `passed: false`; and the controller
never terminates the session on the resulting toolResultMsg (it re-enters the
model loop). -/
theorem executeTest_passed_semantics (exec : ToolExecutor) (tc : ToolCall)
    (history : List ChatMessage)
    (hm : getStringOr tc.arguments "method" ≠ "")
    (he : getStringOr tc.arguments "endpoint" ≠ "") :
    (lookupKey tc.arguments "expected_status" = none →
      getExpectedStatus tc.arguments = 200)
    ∧ (∀ r, exec (getStringOr tc.arguments "method")
          (getStringOr tc.arguments "endpoint") (parseHeaders tc.arguments)
          (lookupKey tc.arguments "body") (getBoolOr tc.arguments "requires_auth")
          = .ok r →
        resultField (executeToolExecuteTest exec tc) "passed"
            = some (.bool (decide (r.statusCode = getExpectedStatus tc.arguments)))
          ∧ (executeToolExecuteTest exec tc).err = none)
    ∧ (∀ e, exec (getStringOr tc.arguments "method")
          (getStringOr tc.arguments "endpoint") (parseHeaders tc.arguments)
          (lookupKey tc.arguments "body") (getBoolOr tc.arguments "requires_auth")
          = .error e →
        resultField (executeToolExecuteTest exec tc) "error" = some (.str e)
          ∧ resultField (executeToolExecuteTest exec tc) "passed"
              = some (.bool false))
    ∧ (updateToolResult history (executeToolExecuteTest exec tc)).2.2
        ≠ NextCmd.quitProgram := by
  have hcond : ¬(getStringOr tc.arguments "method" = ""
      ∨ getStringOr tc.arguments "endpoint" = "") := by
    push_neg
    exact ⟨hm, he⟩
  refine ⟨?_, ?_, ?_, updateToolResult_no_quit history _⟩
  · intro habs
    simp [getExpectedStatus, habs]
  · intro r hr
    constructor <;>
      simp [executeToolExecuteTest, hcond, hr, resultField, lookupKey]
  · intro e hee
    constructor <;>
      simp [executeToolExecuteTest, hcond, hee, resultField, lookupKey]

/-- Demo single-test executor returning a 404. -/
def demoToolExec : ToolExecutor := fun _ _ _ _ _ => .ok ⟨404, "not found", 3⟩

def c4WitCall : ToolCall :=
  ⟨"call_7", "ExecuteTest",
   [("method", GVal.str "GET"), ("endpoint", GVal.str "/missing")]⟩

theorem executeTest_passed_semantics_witness :
    getExpectedStatus c4WitCall.arguments = 200
    ∧ resultField (executeToolExecuteTest demoToolExec c4WitCall) "passed"
        = some (.bool (decide (((404 : Int)) = getExpectedStatus c4WitCall.arguments)))
    ∧ (executeToolExecuteTest demoToolExec c4WitCall).err = none
    ∧ (updateToolResult [] (executeToolExecuteTest demoToolExec c4WitCall)).2.2
        ≠ NextCmd.quitProgram := by
  have h := executeTest_passed_semantics demoToolExec c4WitCall []
    (by decide) (by decide)
  exact ⟨h.1 rfl, (h.2.1 ⟨404, "not found", 3⟩ rfl).1,
    (h.2.1 ⟨404, "not found", 3⟩ rfl).2, h.2.2.2⟩

/-! ## Claim C7 -/

/-- The failing input of C7: an ExecuteTest tool call with id "call_1" whose
required `method` argument is missing. -/
def c7Call : ToolCall :=
  ⟨"call_1", "ExecuteTest", [("endpoint", GVal.str "/ping")]⟩

/-- C7 (code bug): dispatching an ExecuteTest call with a missing required
argument yields a validation error which the controller does not relay as the
ToolResponse for that call: it appends a plain user turn `Tool error: ...`
carrying no FunctionResponse (so no response references id "call_1"), then
continues the session. This contradicts the claim — and the code's own comment
(update_tests.go line 137: the tool result must be the next message after the
tool use) — although the session does continue so the model can react. -/
theorem validation_error_becomes_plain_user_turn :
    (executeToolExecuteTest demoToolExec c7Call).err
        = some "missing required parameters: method and endpoint"
    ∧ updateToolResult [] (executeToolExecuteTest demoToolExec c7Call)
        = ([{ role := "user",
              content :=
                "Tool error: missing required parameters: method and endpoint" }],
           .thinking, .sendChat)
    ∧ ((updateToolResult [] (executeToolExecuteTest demoToolExec c7Call)).1.map
          fun m => m.functionResponse) = [none] :=
  ⟨rfl, rfl, rfl⟩

/-! ## Claim C8 -/

/-- C8: each handleProcessToolCalls dispatch starts at most one tool call, and
whenever it starts one it clears the streamed batch, so no second call from the
same turn can ever be started (extras are ignored); the agentResponseMsg gate
likewise examines only the first call of a batch and never holds an executing
call and a pending call at the same time. -/
theorem dispatcher_single_flight (tcs : List ToolCall) (mode : ExecutionMode) :
    (handleProcessToolCalls tcs).executed.length ≤ 1
    ∧ ((handleProcessToolCalls tcs).executed ≠ [] →
        (handleProcessToolCalls tcs).batch = [])
    ∧ (∀ tc rest, agentResponseToolCalls mode (tc :: rest)
        = agentResponseToolCalls mode [tc])
    ∧ (∀ gr, agentResponseToolCalls mode tcs = some gr →
        ¬(gr.executedCall.isSome ∧ gr.pendingCall.isSome)) := by
  refine ⟨?_, ?_, fun tc rest => rfl, ?_⟩
  · unfold handleProcessToolCalls
    split
    · simp
    · split
      · simp
      · split
        · split
          · simp
          · simp
        · split
          · simp
          · split
            · simp
            · split
              · simp
              · simp
  · unfold handleProcessToolCalls
    split
    · simp
    · split
      · simp
      · split
        · split
          · simp
          · simp
        · split
          · simp
          · split
            · simp
            · split
              · simp
              · simp
  · intro gr hgr
    cases tcs with
    | nil => simp [agentResponseToolCalls] at hgr
    | cons tc rest =>
      simp only [agentResponseToolCalls] at hgr
      cases hgate : confirmationGate mode tc.name
      · rw [hgate] at hgr
        simp only [Option.some.injEq] at hgr
        subst hgr
        simp
      · rw [hgate] at hgr
        simp only [Option.some.injEq] at hgr
        subst hgr
        simp

def c8CallA : ToolCall := ⟨"tg_1", "ExecuteTestGroup", []⟩
def c8CallB : ToolCall := ⟨"tg_2", "ExecuteTestGroup", []⟩

theorem dispatcher_single_flight_witness :
    (handleProcessToolCalls [c8CallA, c8CallB]).batch = []
    ∧ agentResponseToolCalls .normal [c8CallA, c8CallB]
        = agentResponseToolCalls .normal [c8CallA]
    ∧ ¬((⟨.usingTool, some c8CallA, none⟩ : GateResult).executedCall.isSome
        ∧ (⟨.usingTool, some c8CallA, none⟩ : GateResult).pendingCall.isSome) := by
  have h := dispatcher_single_flight [c8CallA, c8CallB] ExecutionMode.normal
  exact ⟨h.2.1 (List.cons_ne_nil _ _), h.2.2.1 c8CallA [c8CallB],
    h.2.2.2 ⟨.usingTool, some c8CallA, none⟩ rfl⟩

/-! ## Claim C9 -/

/-- C9: in a session whose persistence context is ephemeral (no conversation
id, no project, or a temporary project), neither save helper ever emits a
write to the conversation store, for every message of every role; such a
session therefore leaves no rows behind and cannot be resumed. -/
theorem ephemeral_sessions_never_persisted (c : PersistCtx)
    (mtype content : String) (metadata : Option (List (String × GVal)))
    (msg : ChatMessage) (h : c.ephemeral = true) :
    saveMessageToConversation c mtype content metadata = none
    ∧ saveChatMessageToConversation c msg = none := by
  constructor <;> simp [saveMessageToConversation, saveChatMessageToConversation, h]

/-- A temporary (unnamed) project context. -/
def tempCtx : PersistCtx := ⟨"conv-1", true, true⟩

theorem ephemeral_sessions_never_persisted_witness :
    saveMessageToConversation tempCtx "user" "hello" none = none
    ∧ saveChatMessageToConversation tempCtx { role := "user", content := "hello" }
        = none :=
  ephemeral_sessions_never_persisted tempCtx "user" "hello" none
    { role := "user", content := "hello" } (by decide)

/-! ## Claim C10 -/

/-- C10: the title of the conversation created on the first user message equals
that message when it has at most 100 symbols, and otherwise equals its first 97
symbols followed by "...", never exceeding 100 symbols; independently,
CreateConversation replaces an empty title by "Untitled Conversation" and keeps
any non-empty title unchanged. -/
theorem conversation_title_truncation (s t : List Char) :
    (s.length ≤ 100 → conversationTitleFor s = s)
    ∧ (s.length > 100 →
        conversationTitleFor s = s.take 97 ++ ('.' :: '.' :: '.' :: [])
        ∧ (conversationTitleFor s).length = 100)
    ∧ (conversationTitleFor s).length ≤ 100
    ∧ (t.isEmpty → createConversationTitle t = untitledConversation)
    ∧ (¬ t.isEmpty → createConversationTitle t = t) := by
  refine ⟨?_, ?_, ?_, ?_, ?_⟩
  · intro hle
    simp [conversationTitleFor]
    omega
  · intro hgt
    have heq : conversationTitleFor s = s.take 97 ++ ('.' :: '.' :: '.' :: []) := by
      simp [conversationTitleFor, hgt]
    refine ⟨heq, ?_⟩
    rw [heq]
    simp [List.length_take]
    omega
  · by_cases hgt : s.length > 100
    · simp [conversationTitleFor, hgt, List.length_take]
    · simp [conversationTitleFor, hgt]
      omega
  · intro hemp
    simp [createConversationTitle, hemp]
  · intro hemp
    simp [createConversationTitle, hemp]

theorem conversation_title_truncation_witness :
    conversationTitleFor (List.replicate 101 'a')
        = (List.replicate 101 'a').take 97 ++ ('.' :: '.' :: '.' :: [])
    ∧ (conversationTitleFor (List.replicate 101 'a')).length = 100
    ∧ conversationTitleFor (List.replicate 5 'b') = List.replicate 5 'b'
    ∧ createConversationTitle [] = untitledConversation
    ∧ createConversationTitle ['x'] = ['x'] := by
  have h₁ := conversation_title_truncation (List.replicate 101 'a') []
  have h₂ := conversation_title_truncation (List.replicate 5 'b') ['x']
  have hgt : (List.replicate 101 'a').length > 100 := by simp
  exact ⟨(h₁.2.1 hgt).1, (h₁.2.1 hgt).2, h₂.1 (by simp),
    h₁.2.2.2.1 rfl, h₂.2.2.2.2 (by simp)⟩

/-! ## Claim C6 -/

/-- C6 (amended): when the user cancels a stream, the partial text chunk — or,
when no fresh chunk is buffered, the last complete agent message — accumulated
before the cancellation is committed to the conversation store as an assistant
turn whose content carries the " (cancelled)" tag, and no error is rendered
(unlike the ERROR event, which renders one); accumulated partial reasoning is
not part of the committed turn. -/
theorem cancelled_stream_commits_text (b : StreamBuffers) :
    (b.textChunk ≠ "" →
      (handleCancelledEvent b).savedTurn
        = some { role := "assistant", content := b.textChunk ++ " (cancelled)" })
    ∧ (b.textChunk = "" → b.agentMessage ≠ "" →
      (handleCancelledEvent b).savedTurn
        = some { role := "assistant",
                 content := b.agentMessage ++ " (cancelled)" })
    ∧ (handleCancelledEvent b).errorShown = false
    ∧ (handleErrorEvent b).errorShown = true := by
  refine ⟨?_, ?_, rfl, rfl⟩
  · intro ht
    simp [handleCancelledEvent, ht]
  · intro ht ha
    simp [handleCancelledEvent, ht, ha]

def c6WitBuffers : StreamBuffers := ⟨"partial answer", "", "some reasoning", []⟩

theorem cancelled_stream_commits_text_witness :
    (handleCancelledEvent c6WitBuffers).savedTurn
        = some { role := "assistant", content := "partial answer (cancelled)" }
    ∧ (handleCancelledEvent c6WitBuffers).errorShown = false := by
  have h := cancelled_stream_commits_text c6WitBuffers
  exact ⟨h.1 (by decide), h.2.2.1⟩

/-- Buffers of a cancelled stream that had produced only reasoning. -/
def c6BadBuffers : StreamBuffers := ⟨"", "", "chain of thought so far", []⟩

/-- C6 counterexample: a stream cancelled while only reasoning had accumulated
commits nothing — the partial reasoning is discarded rather than committed as
a "(cancelled)" Turn, refuting the claim that any partial text or reasoning is
preserved. -/
theorem cancelled_stream_drops_reasoning :
    c6BadBuffers.reasoningChunk ≠ ""
    ∧ (handleCancelledEvent c6BadBuffers).savedTurn = none :=
  ⟨by decide, rfl⟩

/-! ## Claim C5: round-trip lemmas -/

theorem load_save_user (s : String) (h : s ≠ "") :
    (loadStoredMessage
        (saveMessageBody "user" s (some [("display_content", GVal.str s)]))).map
      ChatMessage.digest
      = some (ChatMessage.digest { role := "user", content := s }) := by
  simp [saveMessageBody, loadStoredMessage, h, ChatMessage.digest]

theorem decodeToolCall_toGVal (tc : ToolCall) :
    decodeToolCall (ToolCall.toGVal tc) = some tc := by
  simp [decodeToolCall, ToolCall.toGVal, GVal.asObj, getStringMeta, lookupKey,
    GVal.asString]

theorem filterMap_decode_comp (calls : List ToolCall) :
    List.filterMap (decodeToolCall ∘ ToolCall.toGVal) calls = calls := by
  induction calls with
  | nil => rfl
  | cons tc rest ih => simp [Function.comp, decodeToolCall_toGVal, ih]

theorem load_save_assistant (c r : String) (calls : List ToolCall)
    (inTok outTok : Int) :
    (loadStoredMessage (saveChatMessageBody
        { role := "assistant", content := c, reasoningContent := r,
          functionCalls := calls, inputTokens := inTok,
          outputTokens := outTok })).map ChatMessage.digest
      = some (ChatMessage.digest
          { role := "assistant", content := c, reasoningContent := r,
            functionCalls := calls, inputTokens := inTok,
            outputTokens := outTok }) := by
  simp only [saveChatMessageBody, saveMessageBody]
  by_cases hr : r = "" <;> by_cases hc : calls.isEmpty <;>
    by_cases hin : inTok > 0 <;> by_cases hout : outTok > 0 <;>
      simp [hr, hc, hin, hout, loadStoredMessage, lookupKey_append, lookupKey,
        getStringMeta, GVal.asString, GVal.asArr, GVal.asObj,
        ChatMessage.digest, List.filterMap_map, filterMap_decode_comp,
        List.isEmpty_iff] <;>
      exact List.isEmpty_iff.mp hc

theorem load_save_toolResponse (fr : FuncResp) :
    (loadStoredMessage (saveChatMessageBody
        { role := "user", functionResponse := some fr })).map ChatMessage.digest
      = some (ChatMessage.digest
          { role := "user", functionResponse := some fr }) := by
  cases hresp : fr.response <;>
    simp [saveChatMessageBody, saveMessageBody, hresp, loadStoredMessage,
      lookupKey_append, lookupKey, getStringMeta, GVal.asString,
      ChatMessage.digest]

/-- The events whose turns go through the per-turn save paths: nonempty user
messages, assistant turns, and tool-response turns. Tool-error turns,
cancelled streams and Esc cancellations fall outside this set. -/
def NormalEvent : SessionEvent → Prop
  | .userSubmit s => s ≠ ""
  | .assistantTurn _ _ _ _ _ => True
  | .toolResponseTurn _ => True
  | _ => False

theorem linkEq_append_one (hist : List ChatMessage) (log : List StoredMessage)
    (m : ChatMessage) (sm : StoredMessage)
    (hinv : linkEqList (replayLog log) hist)
    (hload : (loadStoredMessage sm).map ChatMessage.digest
      = some (ChatMessage.digest m)) :
    linkEqList (replayLog (log ++ [sm])) (hist ++ [m]) := by
  unfold linkEqList replayLog at *
  rw [List.filterMap_append, List.map_append, hinv, List.map_append]
  congr 1
  cases hsm : loadStoredMessage sm with
  | none =>
    rw [hsm] at hload
    exact Option.noConfusion hload
  | some m₁ =>
    rw [hsm] at hload
    simp only [Option.map_some'] at hload
    injection hload with h₁
    simp [List.filterMap_cons, hsm, h₁]

theorem replay_aux (evs : List SessionEvent) :
    ∀ hist log, (∀ e ∈ evs, NormalEvent e) →
      linkEqList (replayLog log) hist →
      linkEqList (replayLog (evs.foldl applyEvent (hist, log)).2)
        (evs.foldl applyEvent (hist, log)).1 := by
  induction evs with
  | nil =>
    intro hist log _ hinv
    simpa using hinv
  | cons ev rest ih =>
    intro hist log hall hinv
    simp only [List.foldl_cons]
    have hev := hall ev (List.mem_cons_self ev rest)
    have hrest : ∀ e ∈ rest, NormalEvent e :=
      fun e he => hall e (List.mem_cons_of_mem ev he)
    cases ev with
    | userSubmit s =>
      exact ih _ _ hrest (linkEq_append_one hist log _ _ hinv (load_save_user s hev))
    | assistantTurn c r calls inTok outTok =>
      exact ih _ _ hrest
        (linkEq_append_one hist log _ _ hinv (load_save_assistant c r calls inTok outTok))
    | toolResponseTurn fr =>
      exact ih _ _ hrest
        (linkEq_append_one hist log _ _ hinv (load_save_toolResponse fr))
    | toolErrorTurn e => exact absurd hev (by simp [NormalEvent])
    | streamCancelled b => exact absurd hev (by simp [NormalEvent])
    | escCancel b => exact absurd hev (by simp [NormalEvent])

/-- C5 (amended): for every session trace built from the per-turn save paths —
nonempty user messages, assistant turns (with any tool-call batch, reasoning
and token counts) and tool-response turns — replaying the persisted rows via
GetMessages and loadConversationHistory reconstructs an in-memory History
equal in role, content, and ToolCall/ToolResponse id-and-name linkage to the
live History. Traces containing cancelled streams or tool-error turns are
excluded: those break the equality (see the counterexample). -/
theorem replay_roundtrip_normal_events (evs : List SessionEvent)
    (h : ∀ e ∈ evs, NormalEvent e) :
    linkEqList (replayLog (applyEvents evs).2) (applyEvents evs).1 := by
  have hbase : linkEqList (replayLog []) [] := rfl
  have := replay_aux evs [] [] h hbase
  simpa [applyEvents] using this

def c5WitEvents : List SessionEvent :=
  [.userSubmit "hello",
   .assistantTurn "Hi" "because" [⟨"tc_1", "ExecuteTest", []⟩] 3 5,
   .toolResponseTurn ⟨"tc_1", "ExecuteTest", some [("passed", GVal.bool true)]⟩]

theorem replay_roundtrip_normal_events_witness :
    linkEqList (replayLog (applyEvents c5WitEvents).2)
      (applyEvents c5WitEvents).1 :=
  replay_roundtrip_normal_events c5WitEvents (by
    intro e he
    simp only [c5WitEvents, List.mem_cons, List.not_mem_nil, or_false] at he
    rcases he with rfl | rfl | rfl
    · show ("hello" : String) ≠ ""
      decide
    · trivial
    · trivial)

/-- A trace in which the user cancels the stream after one message: the partial
text is persisted as an assistant row tagged " (cancelled)" while the live
History receives no such turn. -/
def c5BadEvents : List SessionEvent :=
  [.userSubmit "hi", .streamCancelled ⟨"partial", "", "", []⟩]

/-- C5 counterexample: after a cancelled stream the replayed History differs
from the live History that existed when the turns were saved — the store holds
an extra assistant turn "partial (cancelled)" that the live History never
contained. -/
theorem replay_roundtrip_fails_on_cancel :
    ¬ linkEqList (replayLog (applyEvents c5BadEvents).2)
        (applyEvents c5BadEvents).1 := by
  intro h
  have hlen := congrArg List.length h
  simp only [linkEqList] at h
  have h2 : (List.map ChatMessage.digest
      (replayLog (applyEvents c5BadEvents).2)).length
      = (List.map ChatMessage.digest (applyEvents c5BadEvents).1).length := by
    rw [h]
  revert h2
  decide

end Octrafic
